import Mathlib

/-!
Shallow embedding of the nasa-gsac dashboard (src/main.py and src/agent.py)
and proofs about its weather-data pipeline.

Conventions of the embedding:
- Python floats occurring in the program are exact decimal values, so they are
  embedded as rationals; the literal 0.5 is mkRat 1 2, 0.2 is mkRat 2 10, and
  so on.
- Python code that can raise returns Except PyExn; a successful return is
  Except.ok, an uncaught exception is Except.error.
- Remote services (requests.get, the Groq chat completion, the GhanaNLP
  translate and tts calls) are abstracted as oracle values describing the
  outcome of the one call the program makes; everything the program itself
  does with such an outcome is embedded from the source.
-/

deriving instance DecidableEq for Except

namespace NasaGsac

/-- One timestamped sample of the weather time series: an entry of the
coordinates[0].dates array of a parameter block, with fields date and value. -/
structure Sample where
  date : String
  value : ℚ
  deriving DecidableEq

/-- One coordinate entry of a parameter block, holding its dates array. -/
structure Coordinate where
  dates : List Sample
  deriving DecidableEq

/-- One parameter block of the response payload; the parameter field names the
queried parameter, for example precip_1h:mm. -/
structure ParamBlock where
  parameter : String
  coordinates : List Coordinate
  deriving DecidableEq

/-- The parsed JSON payload returned by the weather API: a data array of
parameter blocks (section 6 of the spec). -/
structure Payload where
  data : List ParamBlock
  deriving DecidableEq

/-- Python exceptions the embedded code can raise without catching them. -/
inductive PyExn where
  | indexError
  | unboundLocalError
  deriving DecidableEq

/-- Evaluation of the subscript chain p["data"][0]["coordinates"][0]["dates"]
used at src/main.py lines 51, 56 and 60: indexing [0] raises IndexError on an
empty list, otherwise the dates array of the first coordinate of the first
parameter block is produced. -/
def firstSeries (p : Payload) : Except PyExn (List Sample) :=
  match p.data.head? with
  | none => Except.error PyExn.indexError
  | some blk =>
    match blk.coordinates.head? with
    | none => Except.error PyExn.indexError
    | some c => Except.ok c.dates

/-- Embedding of predict_rainfall (src/main.py lines 55-57): collect the value
of every entry of the first parameter block and test any value > 0.5 (the
Python literal 0.5 is the exact rational mkRat 1 2). -/
def predict_rainfall (data : Payload) : Except PyExn Bool :=
  (firstSeries data).map (fun ds => ds.any (fun s => decide (mkRat 1 2 < s.value)))

/-- The line-chart value produced by plot_weather_data: the plotted points in
dataframe row order and the chart title. -/
structure Chart where
  points : List (String × ℚ)
  title : String
  deriving DecidableEq

/-- Embedding of plot_weather_data (src/main.py lines 50-53): the dataframe
rows are the entries of the first parameter block in list order, and px.line
plots x = the date field and y = the value field of each row. -/
def plot_weather_data (data : Payload) (param : String) : Except PyExn Chart :=
  (firstSeries data).map (fun ds =>
    { points := ds.map (fun s => (s.date, s.value)),
      title := param ++ " over time" })

/-- The status-dependent st.error message of the except branch of
get_weather_data (src/main.py lines 36-45). -/
def statusMessage (status_code : Nat) : String :=
  if status_code = 400 then
    "Bad request. Please check your input parameters and API credentials."
  else if status_code = 401 then
    "Unauthorized. Please check your API credentials."
  else if status_code = 403 then
    "Forbidden. You may not have permission to access this resource."
  else if status_code = 404 then
    "Not found. The requested resource doesn\x27t exist."
  else
    "An error occurred: " ++ toString status_code

/-- URL construction of get_weather_data (src/main.py line 26). The f-string
interpolates the dates, the coordinate and nothing else: the ps argument
(named parameters in the source) is never used, and the parameter triple
t_2m:C,precip_1h:mm,wind_speed_10m:ms at PT1H resolution is hard coded. -/
def buildUrl (start_date end_date : String) (ps : List String) (lat lon : String) : String :=
  "https://api.meteomatics.com/" ++ start_date ++ "T00:00:00Z--" ++ end_date ++
    "T00:00:00Z:PT1H/t_2m:C,precip_1h:mm,wind_speed_10m:ms/" ++ lat ++ "," ++ lon ++ "/json"

/-- An HTTP response object as returned by requests.get. The body is carried
already parsed (json.loads of response.text); its raw text is elided because
no claim depends on it. -/
structure HttpResponse where
  status_code : Nat
  body : Payload
  deriving DecidableEq

/-- Outcome of the call requests.get(url, auth=...) at src/main.py line 31:
either a response object is returned and bound to the local variable
response, or the call itself raises a connection-level RequestException and
the local variable response is never bound. -/
inductive FetchOutcome where
  | response (r : HttpResponse)
  | connectionError
  deriving DecidableEq

/-- What get_weather_data shows and returns when it terminates normally: the
st.write and st.error messages emitted, and the returned value (the parsed
payload, or None on a handled failure). -/
structure FetchReport where
  messages : List String
  result : Option Payload
  deriving DecidableEq

/-- Embedding of get_weather_data (src/main.py lines 25-48), minus the
st.cache_data decorator, which is modelled separately by cachedFetch.

- The auth pair mirrors auth=(API_USERNAME, API_PASSWORD); the function never
  inspects it, faithful to the source, which passes it to requests.get
  unexamined.
- response.raise_for_status() raises exactly when 400 <= status_code < 600;
  the handler then reads response.status_code and emits the status message.
  The message f-string "Failed to fetch data: e" is abbreviated to its fixed
  prefix because no claim depends on the rendering of the exception object,
  and likewise "Response content:" stands for the final st.write.
- On a connection-level failure the except handler evaluates
  response.status_code while the local variable response was never bound, so
  an UnboundLocalError escapes get_weather_data. -/
def get_weather_data (auth : Option String × Option String)
    (start_date end_date : String) (ps : List String) (lat lon : String)
    (outcome : FetchOutcome) : Except PyExn FetchReport :=
  match outcome with
  | FetchOutcome.response r =>
    if 400 ≤ r.status_code ∧ r.status_code < 600 then
      Except.ok { messages := ["Requesting data from: " ++ buildUrl start_date end_date ps lat lon,
                               "Failed to fetch data",
                               statusMessage r.status_code,
                               "Response content:"],
                  result := none }
    else
      Except.ok { messages := ["Requesting data from: " ++ buildUrl start_date end_date ps lat lon],
                  result := some r.body }
  | FetchOutcome.connectionError =>
    Except.error PyExn.unboundLocalError

/-- Outcome of the chat-completions call inside the try block of
analyze_weather_data: either the extracted message content, or the rendering
of the exception e that the call raised. -/
inductive LLMOutcome where
  | success (msg : String)
  | failure (err : String)
  deriving DecidableEq

/-- Embedding of analyze_weather_data (src/agent.py lines 15-48): the try
block returns the message content of the completion; except Exception as e
returns the apology string built around the rendered exception. -/
def analyze_weather_data (outcome : LLMOutcome) : String :=
  match outcome with
  | LLMOutcome.success msg => msg
  | LLMOutcome.failure e =>
    "An error occurred during the AI analysis: " ++ e ++
      ". Please check your internet connection or API key."

/-- The argument tuple of get_weather_data, the key of the session cache:
(start_date, end_date, parameters, lat, lon). Dates and coordinates are kept
as their string renderings, since only keyed equality matters to caching. -/
abbrev Query := String × String × List String × String × String

/-- Linear lookup in the memo table of the session cache. -/
def cacheLookup {β : Type} : List (Query × β) → Query → Option β
  | [], _ => none
  | (k, v) :: rest, q => if q = k then some v else cacheLookup rest q

/-- Modelled from the st.cache_data decorator applied to get_weather_data at
src/main.py line 24 (the Streamlit library is outside src/): a per-session
memoization keyed by the argument tuple. Returns the result, the updated
cache, and the number of invocations of the wrapped function this call
performed (0 on a cache hit, 1 on a miss). -/
def cachedFetch {β : Type} (f : Query → β) (cache : List (Query × β)) (q : Query) :
    β × List (Query × β) × Nat :=
  match cacheLookup cache q with
  | some v => (v, cache, 0)
  | none => (f q, (q, f q) :: cache, 1)

/-- The fetch boundary that st.cache_data wraps: one invocation is one call of
get_weather_data, hence one network request. The network is abstracted as a
map from queries to requests.get outcomes. -/
def weatherFetchBoundary (net : Query → FetchOutcome) (auth : Option String × Option String)
    (q : Query) : Except PyExn FetchReport :=
  get_weather_data auth q.1 q.2.1 q.2.2.1 q.2.2.2.1 q.2.2.2.2 (net q)

/-- Embedding of the credential loading at src/main.py lines 21-22:
API_USERNAME and API_PASSWORD are read with os.getenv (None when absent) and
no validation of any kind follows, so no execution path produces a startup
configuration error. The error type is String to give a fail-fast check a
place to live; the source never uses it. -/
def loadCredentials (env : String → Option String) : Except String (Option String × Option String) :=
  Except.ok (env "API_USERNAME", env "API_PASSWORD")

/-- UI and external-service calls of the rainfall-prediction page after a
successful fetch (src/main.py lines 111-144). -/
inductive UIStep where
  | metric (label value : String)
  | chart (title : String)
  | heatmap
  | advisory (text : String)
  | translateReq (text lang : String)
  | ttsReq (lang : String)
  | audio
  | aiInsight
  deriving DecidableEq

/-- The advisory shown and spoken when rainfall is predicted (line 135). -/
def rainAdvisory : String :=
  "Rainfall is expected in the coming days. Consider adjusting your irrigation schedule and preparing for potential water accumulation."

/-- The advisory shown and spoken when no rainfall is predicted (line 138). -/
def dryAdvisory : String :=
  "No significant rainfall is expected. Ensure your crops have adequate irrigation and consider water conservation measures."

/-- Embedding of the rainfall page flow after a successful fetch (src/main.py
lines 111-144). The GhanaNLP client is built from the user-supplied key at
line 95 (an empty string when the optional text input is left blank) and the
api.translate and api.tts calls at lines 136/139 run unconditionally: no
branch of the source consults the key. nlpFails abstracts whether the remote
GhanaNLP call raises; when it does, nothing catches the exception, so the
interaction stops (second component true) before the AI-insight section at
line 142. -/
def rainfallFlow (key : String) (rain : Bool) (nlpFails : Bool) : List UIStep × Bool :=
  let advisoryText := if rain then rainAdvisory else dryAdvisory
  let pre : List UIStep :=
    [UIStep.metric "Rainfall Prediction" (if rain then "Rain" else "No Rain"),
     UIStep.chart "Precipitation (mm)",
     UIStep.chart "Temperature (°C)",
     UIStep.heatmap,
     UIStep.advisory advisoryText,
     UIStep.translateReq advisoryText "en-tw"]
  if nlpFails then
    (pre, true)
  else
    (pre ++ [UIStep.ttsReq "tw", UIStep.audio, UIStep.aiInsight], false)

/-- The precipitation values of a payload, identified the way the spec
identifies them (section 4.2: the precipitation samples): the values of the
parameter block labeled precip_1h:mm. This definition follows the spec
wording and exists for comparison with predict_rainfall, which instead reads
whatever block comes first. -/
def precipValues (p : Payload) : List ℚ :=
  match p.data.find? (fun b => b.parameter == "precip_1h:mm") with
  | none => []
  | some b =>
    match b.coordinates.head? with
    | none => []
    | some c => c.dates.map Sample.value

/-- The sample series of the fixture in section 8 of the spec, precipitation
values 0.0, 0.2, 0.6, 0.1 at consecutive hours. -/
def fixtureSeries : List Sample :=
  [{ date := "2024-10-05T00:00:00Z", value := 0 },
   { date := "2024-10-05T01:00:00Z", value := mkRat 2 10 },
   { date := "2024-10-05T02:00:00Z", value := mkRat 6 10 },
   { date := "2024-10-05T03:00:00Z", value := mkRat 1 10 }]

/-- Fixture payload carrying the precipitation fixture series as its sole
parameter block. -/
def fixturePayload : Payload :=
  { data := [{ parameter := "precip_1h:mm", coordinates := [{ dates := fixtureSeries }] }] }

/-- A payload shaped like a response to the hard-coded request URL: parameter
blocks in requested order, temperature first. The temperature is 20 C and
every precipitation value is 0, well below 0.5 mm. -/
def orderedPayload : Payload :=
  { data := [{ parameter := "t_2m:C",
               coordinates := [{ dates := [{ date := "2024-10-05T00:00:00Z", value := 20 }] }] },
             { parameter := "precip_1h:mm",
               coordinates := [{ dates := [{ date := "2024-10-05T00:00:00Z", value := 0 }] }] },
             { parameter := "wind_speed_10m:ms",
               coordinates := [{ dates := [{ date := "2024-10-05T00:00:00Z", value := 3 }] }] }] }

/-- A payload whose every parameter block has an empty dates array, the
payload form of an empty WeatherSeries. -/
def emptyPayload : Payload :=
  { data := [{ parameter := "t_2m:C", coordinates := [{ dates := [] }] },
             { parameter := "precip_1h:mm", coordinates := [{ dates := [] }] },
             { parameter := "wind_speed_10m:ms", coordinates := [{ dates := [] }] }] }

/-- An environment with the weather username absent and the other secrets
present. -/
def envMissingUsername : String → Option String :=
  fun k => if k = "API_PASSWORD" then some "secret" else
    if k = "GROQ_API_KEY" then some "gk" else none

/-- Helper: the fallback error message (the final else branch of
statusMessage) differs from any string whose first nineteen characters differ
from the fallback prefix, whatever the rendered status code is. -/
theorem fallback_message_ne (x : String) (m : String)
    (hm : m.data.take 19 ≠ "An error occurred: ".data) :
    "An error occurred: " ++ x ≠ m := by
  intro h
  apply hm
  rw [← h]
  show ("An error occurred: ".data ++ x.data).take 19 = "An error occurred: ".data
  have h19 : (19 : Nat) = ("An error occurred: ".data).length := rfl
  rw [h19, List.take_left]

/-- C1: the classifier does not read the precipitation series. Evaluated on a
payload shaped like a response to the hard-coded request URL (parameter
blocks in requested order, temperature first), predict_rainfall returns true
even though every precipitation value is 0, below the 0.5 mm threshold: it
scans the first parameter block, which is the temperature series. -/
theorem predict_rainfall_reads_first_block :
    predict_rainfall orderedPayload = Except.ok true ∧
    precipValues orderedPayload = [0] ∧
    ((precipValues orderedPayload).all (fun v => decide (v ≤ mkRat 1 2))) = true := by
  decide

/-- C2: plot_weather_data is a passthrough renderer. Whenever the plotted
series of the payload is the sample list series, the chart holds exactly the
points (date, value) of the samples of series, one per sample, in the
original list order; on the fixture payload with precipitation values
0.0, 0.2, 0.6, 0.1 it yields exactly those four points in order. -/
theorem plot_weather_data_passthrough (p : Payload) (label : String) (series : List Sample)
    (h : firstSeries p = Except.ok series) :
    plot_weather_data p label =
      Except.ok { points := series.map (fun s => (s.date, s.value)),
                  title := label ++ " over time" } ∧
    plot_weather_data fixturePayload "Precipitation (mm)" =
      Except.ok { points := [("2024-10-05T00:00:00Z", 0),
                             ("2024-10-05T01:00:00Z", mkRat 2 10),
                             ("2024-10-05T02:00:00Z", mkRat 6 10),
                             ("2024-10-05T03:00:00Z", mkRat 1 10)],
                  title := "Precipitation (mm) over time" } := by
  constructor
  · simp [plot_weather_data, h, Except.map]
  · decide

/-- Witness for C2: the passthrough equation evaluated on the fixture payload
and its series. -/
theorem plot_weather_data_passthrough_witness :
    plot_weather_data fixturePayload "Precipitation (mm)" =
      Except.ok { points := fixtureSeries.map (fun s => (s.date, s.value)),
                  title := "Precipitation (mm) over time" } :=
  (plot_weather_data_passthrough fixturePayload "Precipitation (mm)" fixtureSeries rfl).1

/-- C4: on a connection-level failure of requests.get no response object
exists, and the except handler of get_weather_data dereferences the unbound
local variable response, so an UnboundLocalError escapes the function instead
of a message plus a None return. -/
theorem get_weather_data_network_failure_unhandled :
    get_weather_data (some "user", some "pass") "2024-10-01" "2024-10-08"
      ["precip_1h:mm", "t_2m:C"] "52.520551" "13.461804" FetchOutcome.connectionError =
      Except.error PyExn.unboundLocalError := rfl

/-- C5: whatever exception the summarization call raises, analyze_weather_data
returns the explanatory apology string built from it, a nonempty string, and
never propagates the error (the embedding is a total String-valued function). -/
theorem analyze_weather_data_catches_exceptions (e : String) :
    analyze_weather_data (LLMOutcome.failure e) =
      "An error occurred during the AI analysis: " ++ e ++
        ". Please check your internet connection or API key." ∧
    0 < (analyze_weather_data (LLMOutcome.failure e)).length := by
  refine ⟨rfl, ?_⟩
  show 0 < (("An error occurred during the AI analysis: ".data ++ e.data) ++
    ". Please check your internet connection or API key.".data).length
  simp

/-- C7: a payload whose every parameter block carries an empty dates array
(the payload of an empty WeatherSeries, precipitation series included)
makes predict_rainfall return false without raising. -/
theorem predict_rainfall_empty_series (p : Payload)
    (hall : ∀ blk ∈ p.data, ∀ c ∈ blk.coordinates, c.dates = [])
    (hblocks : p.data ≠ []) (hcoords : ∀ blk ∈ p.data, blk.coordinates ≠ []) :
    predict_rainfall p = Except.ok false := by
  cases hd : p.data with
  | nil => exact absurd hd hblocks
  | cons blk rest =>
    have hblk : blk ∈ p.data := by rw [hd]; exact List.mem_cons_self _ _
    cases hc : blk.coordinates with
    | nil => exact absurd hc (hcoords blk hblk)
    | cons c cs =>
      have hcm : c ∈ blk.coordinates := by rw [hc]; exact List.mem_cons_self _ _
      have hdates : c.dates = [] := hall blk hblk c hcm
      simp [predict_rainfall, firstSeries, hd, hc, hdates, Except.map]

/-- Witness for C7: the empty-series payload evaluates to false. -/
theorem predict_rainfall_empty_series_witness :
    predict_rainfall emptyPayload = Except.ok false :=
  predict_rainfall_empty_series emptyPayload (by decide) (by decide) (by decide)

/-- C10: the request URL never interpolates the parameters argument: two calls
of get_weather_data differing only in that argument build the same URL, the
URL always carries the fixed triple t_2m:C,precip_1h:mm,wind_speed_10m:ms at
PT1H resolution, and the whole function result is independent of the
argument. -/
theorem buildUrl_ignores_parameters (sd ed lat lon : String) (ps1 ps2 : List String) :
    buildUrl sd ed ps1 lat lon = buildUrl sd ed ps2 lat lon ∧
    buildUrl sd ed ps1 lat lon =
      "https://api.meteomatics.com/" ++ sd ++ "T00:00:00Z--" ++ ed ++
        "T00:00:00Z:PT1H/t_2m:C,precip_1h:mm,wind_speed_10m:ms/" ++ lat ++ "," ++ lon ++ "/json" ∧
    (∀ auth outcome, get_weather_data auth sd ed ps1 lat lon outcome =
        get_weather_data auth sd ed ps2 lat lon outcome) :=
  ⟨rfl, rfl, fun _ _ => rfl⟩

/-- C3: on every failed fetch that produced a response (status 400 to 599),
get_weather_data shows the status-mapped message and returns None; the 401
message is the credential message and differs from the 404 message; the four
named statuses have pairwise distinct messages; and every other status gets
the fallback message carrying its own status code, distinct from each of the
four named messages. -/
theorem get_weather_data_status_messages :
    (∀ auth sd ed ps lat lon r, 400 ≤ HttpResponse.status_code r → HttpResponse.status_code r < 600 →
      ∃ rep, get_weather_data auth sd ed ps lat lon (FetchOutcome.response r) = Except.ok rep ∧
        statusMessage r.status_code ∈ rep.messages ∧ rep.result = none) ∧
    statusMessage 401 = "Unauthorized. Please check your API credentials." ∧
    statusMessage 401 ≠ statusMessage 404 ∧
    List.Pairwise (fun a b => a ≠ b)
      [statusMessage 400, statusMessage 401, statusMessage 403, statusMessage 404] ∧
    (∀ s, s ≠ 400 → s ≠ 401 → s ≠ 403 → s ≠ 404 →
      statusMessage s = "An error occurred: " ++ toString s ∧
      statusMessage s ≠ statusMessage 400 ∧ statusMessage s ≠ statusMessage 401 ∧
      statusMessage s ≠ statusMessage 403 ∧ statusMessage s ≠ statusMessage 404) := by
  refine ⟨?_, by decide, by decide, by decide, ?_⟩
  · intro auth sd ed ps lat lon r h1 h2
    have heq : get_weather_data auth sd ed ps lat lon (FetchOutcome.response r) =
        Except.ok { messages := ["Requesting data from: " ++ buildUrl sd ed ps lat lon,
                                 "Failed to fetch data",
                                 statusMessage r.status_code,
                                 "Response content:"],
                    result := none } := by
      show (if 400 ≤ r.status_code ∧ r.status_code < 600 then _ else _) = _
      rw [if_pos ⟨h1, h2⟩]
    exact ⟨_, heq, by simp, rfl⟩
  · intro s h400 h401 h403 h404
    have hs : statusMessage s = "An error occurred: " ++ toString s := by
      simp [statusMessage, h400, h401, h403, h404]
    refine ⟨hs, ?_, ?_, ?_, ?_⟩ <;>
      { rw [hs]; exact fallback_message_ne (toString s) _ (by decide) }

/-- Witness for C3: a concrete 401 response yields a report carrying the
credential message and a None result, and a concrete unnamed status (500) has
a message distinct from the named ones. -/
theorem get_weather_data_status_messages_witness :
    (∃ rep, get_weather_data (some "user", some "pass") "2024-10-01" "2024-10-08"
        ["precip_1h:mm", "t_2m:C"] "52.520551" "13.461804"
        (FetchOutcome.response { status_code := 401, body := { data := [] } }) = Except.ok rep ∧
      statusMessage 401 ∈ rep.messages ∧ rep.result = none) ∧
    statusMessage 500 ≠ statusMessage 404 := by
  constructor
  · exact get_weather_data_status_messages.1 (some "user", some "pass") "2024-10-01" "2024-10-08"
      ["precip_1h:mm", "t_2m:C"] "52.520551" "13.461804"
      { status_code := 401, body := { data := [] } } (by decide) (by decide)
  · exact (get_weather_data_status_messages.2.2.2.2 500
      (by decide) (by decide) (by decide) (by decide)).2.2.2.2

/-- C6: repeating an identical query within one session hits the session
cache: whatever the network oracle, the credentials, the prior cache contents
and the query tuple, the second call with the same tuple returns the result
of the first call and performs zero invocations of the underlying fetch
boundary, hence no second network request. -/
theorem cached_fetch_no_second_request (net : Query → FetchOutcome)
    (auth : Option String × Option String)
    (cache : List (Query × Except PyExn FetchReport)) (q : Query) :
    (cachedFetch (weatherFetchBoundary net auth)
        ((cachedFetch (weatherFetchBoundary net auth) cache q).2.1) q).1 =
      (cachedFetch (weatherFetchBoundary net auth) cache q).1 ∧
    (cachedFetch (weatherFetchBoundary net auth)
        ((cachedFetch (weatherFetchBoundary net auth) cache q).2.1) q).2.2 = 0 := by
  cases h : cacheLookup cache q <;> simp [cachedFetch, h, cacheLookup]

/-- C8 counterexample: with the weather username absent from the environment
(and the other secrets present), the credential loading of the program
succeeds with a None username instead of failing fast with a configuration
error. -/
theorem loadCredentials_no_failfast_counterexample :
    envMissingUsername "API_USERNAME" = none ∧
    loadCredentials envMissingUsername = Except.ok (none, some "secret") := by
  exact ⟨rfl, rfl⟩

/-- C8 amended: a missing weather credential is not detected at startup: the
credentials load without any error as None values, the fetch is still
attempted with them, and the absence surfaces only as a downstream fetch
failure, for example an HTTP 401 handled with the unauthorized message and a
None result. -/
theorem loadCredentials_downstream_401 (env : String → Option String)
    (h : env "API_USERNAME" = none) :
    loadCredentials env = Except.ok (none, env "API_PASSWORD") ∧
    (∀ sd ed ps lat lon body,
      ∃ rep, get_weather_data (none, env "API_PASSWORD") sd ed ps lat lon
          (FetchOutcome.response { status_code := 401, body := body }) = Except.ok rep ∧
        statusMessage 401 ∈ rep.messages ∧ rep.result = none) := by
  constructor
  · simp [loadCredentials, h]
  · intro sd ed ps lat lon body
    exact ⟨_, rfl, by simp [get_weather_data], rfl⟩

/-- Witness for C8 amended: evaluated on the concrete environment missing the
username and a concrete query meeting a 401 response. -/
theorem loadCredentials_downstream_401_witness :
    loadCredentials envMissingUsername = Except.ok (none, some "secret") ∧
    (∃ rep, get_weather_data (none, some "secret") "2024-10-01" "2024-10-08"
        ["precip_1h:mm", "t_2m:C"] "52.520551" "13.461804"
        (FetchOutcome.response { status_code := 401, body := { data := [] } }) = Except.ok rep ∧
      statusMessage 401 ∈ rep.messages ∧ rep.result = none) := by
  have h := loadCredentials_downstream_401 envMissingUsername rfl
  have hp : envMissingUsername "API_PASSWORD" = some "secret" := rfl
  constructor
  · rw [h.1, hp]
  · have h2 := h.2 "2024-10-01" "2024-10-08" ["precip_1h:mm", "t_2m:C"]
      "52.520551" "13.461804" { data := [] }
    rwa [hp] at h2

/-- C9 counterexample: with the GhanaNLP key left empty, the rainfall flow
still issues the translate request (the feature is not disabled), and if the
remote GhanaNLP call then fails, the interaction crashes and the AI-insight
section is never reached, instead of degrading gracefully. -/
theorem rainfallFlow_no_key_counterexample :
    UIStep.translateReq rainAdvisory "en-tw" ∈ (rainfallFlow "" true false).1 ∧
    (rainfallFlow "" true true).2 = true ∧
    UIStep.aiInsight ∉ (rainfallFlow "" true true).1 := by
  decide

/-- C9 amended: whatever the key (the empty key of a user who supplied none
included), the flow always issues the translate request after rendering the
prediction and the charts; the interaction crashes exactly when the GhanaNLP
call fails, and in that case the AI-insight section is never reached. -/
theorem rainfallFlow_always_calls_nlp (key : String) (rain nlpFails : Bool) :
    UIStep.translateReq (if rain then rainAdvisory else dryAdvisory) "en-tw"
        ∈ (rainfallFlow key rain nlpFails).1 ∧
    UIStep.chart "Precipitation (mm)" ∈ (rainfallFlow key rain nlpFails).1 ∧
    (rainfallFlow key rain nlpFails).2 = nlpFails ∧
    (nlpFails = true → UIStep.aiInsight ∉ (rainfallFlow key rain nlpFails).1) := by
  cases nlpFails <;> cases rain <;> simp [rainfallFlow]

/-- Witness for C9 amended: evaluated at the empty key with rain predicted and
a failing GhanaNLP call, the implication discharged. -/
theorem rainfallFlow_always_calls_nlp_witness :
    UIStep.translateReq rainAdvisory "en-tw" ∈ (rainfallFlow "" true true).1 ∧
    UIStep.chart "Precipitation (mm)" ∈ (rainfallFlow "" true true).1 ∧
    (rainfallFlow "" true true).2 = true ∧
    UIStep.aiInsight ∉ (rainfallFlow "" true true).1 := by
  have h := rainfallFlow_always_calls_nlp "" true true
  exact ⟨h.1, h.2.1, h.2.2.1, h.2.2.2 rfl⟩

end NasaGsac
